import Mathlib

set_option maxRecDepth 16384

/-!
Shallow embedding of the Zotero RDF exporter
(`src/biblioruler/exporters/zotero_rdf.py`).

Strings are modelled by `String`, the on-disk filesystem by an association
list from path to file size, and Python exceptions by `Except`.  The
external PDF-annotation-embedding capability of a `File`
(`embed_annotations`, provided by the data-access collaborator outside this
module) is modelled as declared behaviour data on the `File`: it either
succeeds, writing the destination file, or fails with an exception of a
given class, possibly after partially writing the destination.  Python
`write(out, indent, string, ...)` calls that go to a stream are modelled by
pure string concatenation in emission order; an exception carries the text
written to the primary stream up to the point where it was raised, since
the real code writes incrementally to an open file.
-/

/- ---------------------------------------------------------------- -/
/- Escaping utilities (`escape`, lines 11-15 of zotero_rdf.py)       -/
/- ---------------------------------------------------------------- -/

/-- Action of `xml.sax.saxutils.escape` on a single character: it rewrites
`&`, `<` and `>` to their entities and leaves every other character (in
particular both quote characters, since no extra entity table is passed)
unchanged. -/
def escChar (c : Char) : List Char :=
  if c = '&' then ['&', 'a', 'm', 'p', ';']
  else if c = '<' then ['&', 'l', 't', ';']
  else if c = '>' then ['&', 'g', 't', ';']
  else [c]

/-- Character-wise form of `xml.sax.saxutils.escape` (the three sequential
`str.replace` calls of saxutils commute with this char-wise expansion). -/
def escapeChars : List Char → List Char
  | [] => []
  | c :: rest => escChar c ++ escapeChars rest

/-- `xml.sax.saxutils.escape` on a string. -/
def escapeString (s : String) : String := String.mk (escapeChars s.data)

/-- The module's `escape` helper: `None` passes through unchanged, a string
is XML-escaped. -/
def escape : Option String → Option String
  | none => none
  | some s => some (escapeString s)

/-- Python `"...".format(x)` rendering of an optional string: `None` prints
as the four-character string `"None"`. -/
def formatArg : Option String → String
  | none => "None"
  | some s => s

/-- Python truthiness of an optional string (`None` and `""` are falsy). -/
def truthy : Option String → Bool
  | none => false
  | some s => !(s == "")

/-- Indentation prefix used by `write`: `"  " * indent`. -/
def indentStr (n : Nat) : String := String.join (List.replicate n "  ")

/-- `write(out, indent, string, *objects)` with a true condition: the
indent prefix followed by the (already formatted) string. -/
def write (indent : Nat) (s : String) : String := indentStr indent ++ s

/-- `write(out, indent, string, *objects, condition=c)`: emits nothing when
the condition is falsy. -/
def writeIf (c : Bool) (indent : Nat) (s : String) : String :=
  if c then indentStr indent ++ s else ""

/- ---------------------------------------------------------------- -/
/- Type mapping tables (lines 29-45)                                 -/
/- ---------------------------------------------------------------- -/

/-- `BIBTYPE`: the bibliographic display-tag table.  In the source it is
the empty dictionary. -/
def BIBTYPE : List (String × String) := []

/-- `ZTYPE`: Zotero item-type mapping from CSL types. -/
def ZTYPE : List (String × String) :=
  [("paper-conference", "conferencePaper"),
   ("article-journal", "journalArticle"),
   ("report", "report"),
   ("book", "book"),
   ("chapter", "bookSection"),
   ("journal", "journal"),
   ("patent", "patent"),
   ("webpage", "webpage"),
   ("thesis", "thesis"),
   ("entry", "document"),
   ("bill", "hearing")]

/-- `BIBTYPE.get(type, "Article")`: permissive lookup with default used for
the element tag (line 93). -/
def bibTag (t : String) : String := (List.lookup t BIBTYPE).getD "Article"

/-- `ZTYPE[type]` as a total lookup; `none` corresponds to the `KeyError`
raised at line 112 for an unmapped type. -/
def ztypeLookup (t : String) : Option String := List.lookup t ZTYPE

/-- The character class of `RE_FILECHARS = re.compile(r"""[/:\-"']""")`. -/
def RE_FILECHARS (c : Char) : Bool :=
  c = '/' || c = ':' || c = '-' || c = '"' || c = '\''

/-- `RE_FILECHARS.sub("_", s)`: each matching character becomes `_`. -/
def sanitize (s : String) : String :=
  String.mk (s.data.map (fun c => if RE_FILECHARS c then '_' else c))

/-- `os.path.basename` for POSIX-style paths: everything after the last
separator (the empty string when the path ends in a separator). -/
def basename (s : String) : String :=
  String.mk ((s.data.reverse.takeWhile (fun c => !(c == '/'))).reverse)

/-- `os.path.join` for the simple relative-path uses in this module. -/
def joinPath (a b : String) : String := if a = "" then b else a ++ "/" ++ b

/- ---------------------------------------------------------------- -/
/- Data model (read-only inputs supplied by the manager layer)       -/
/- ---------------------------------------------------------------- -/

/-- An author: `firstname` and `surname`. -/
structure Author where
  firstname : String
  surname : String
  deriving DecidableEq

/-- A note: identity, optional title, and an HTML body. -/
structure Note where
  uuid : String
  title : Option String
  html : String
  deriving DecidableEq

/-- Classes of exception the external `embed_annotations` operation can
raise: `PyPDF2.utils.PdfReadError`, `IOError`, or anything else. -/
inductive EmbedErrKind where
  | pdfReadError
  | ioError
  | otherError
  deriving DecidableEq

/-- A failure of `embed_annotations`: its exception class, and the size of
the partially-written destination file it left behind, if any. -/
structure EmbedFail where
  kind : EmbedErrKind
  writtenSize : Option Nat
  deriving DecidableEq

/-- Declared behaviour of a file's `embed_annotations(destination)` call:
success writes the destination file with the given size, failure raises
after possibly partially writing it. -/
inductive EmbedBehavior where
  | succeeds (size : Nat)
  | fails (e : EmbedFail)
  deriving DecidableEq

/-- A file attachment, with its capabilities `exists()`,
`has_externalannotations()` and `embed_annotations(path)` modelled as
declared data (they belong to the external data-access collaborator). -/
structure File where
  uuid : String
  path : String
  title : Option String
  mimetype : Option String
  fileExists : Bool
  hasExternalAnnotations : Bool
  embed : EmbedBehavior
  deriving DecidableEq

/-- A publication.  `abstract` is doubly optional because the code guards
it with `hasattr` before testing truthiness; `dateStr` is the result of the
`date()` accessor and `creationdate` the `"%Y-%m-%d %H:%M:%S"`-formatted
timestamp, both pre-rendered since their formatting happens outside this
module's logic. -/
inductive Paper where
  | mk (uuid type title : String) (abstract : Option (Option String))
      (volume number doi pages : Option String) (keywords : List String)
      (read : Bool) (container : Option Paper) (dateStr : String)
      (creationdate : Option String) (authors : List Author)
      (notes : List Note) (files : List File) : Paper

def Paper.uuid : Paper → String
  | .mk u _ _ _ _ _ _ _ _ _ _ _ _ _ _ _ => u

def Paper.type : Paper → String
  | .mk _ t _ _ _ _ _ _ _ _ _ _ _ _ _ _ => t

def Paper.title : Paper → String
  | .mk _ _ t _ _ _ _ _ _ _ _ _ _ _ _ _ => t

def Paper.abstract : Paper → Option (Option String)
  | .mk _ _ _ a _ _ _ _ _ _ _ _ _ _ _ _ => a

def Paper.volume : Paper → Option String
  | .mk _ _ _ _ v _ _ _ _ _ _ _ _ _ _ _ => v

def Paper.number : Paper → Option String
  | .mk _ _ _ _ _ n _ _ _ _ _ _ _ _ _ _ => n

def Paper.doi : Paper → Option String
  | .mk _ _ _ _ _ _ d _ _ _ _ _ _ _ _ _ => d

def Paper.pages : Paper → Option String
  | .mk _ _ _ _ _ _ _ p _ _ _ _ _ _ _ _ => p

def Paper.keywords : Paper → List String
  | .mk _ _ _ _ _ _ _ _ k _ _ _ _ _ _ _ => k

def Paper.read : Paper → Bool
  | .mk _ _ _ _ _ _ _ _ _ r _ _ _ _ _ _ => r

def Paper.container : Paper → Option Paper
  | .mk _ _ _ _ _ _ _ _ _ _ c _ _ _ _ _ => c

def Paper.dateStr : Paper → String
  | .mk _ _ _ _ _ _ _ _ _ _ _ d _ _ _ _ => d

def Paper.creationdate : Paper → Option String
  | .mk _ _ _ _ _ _ _ _ _ _ _ _ c _ _ _ => c

def Paper.authors : Paper → List Author
  | .mk _ _ _ _ _ _ _ _ _ _ _ _ _ a _ _ => a

def Paper.notes : Paper → List Note
  | .mk _ _ _ _ _ _ _ _ _ _ _ _ _ _ n _ => n

def Paper.files : Paper → List File
  | .mk _ _ _ _ _ _ _ _ _ _ _ _ _ _ _ f => f

/-- A collection: identity, name, child collections, member publications.
Children and members are only referenced by identifier in the output. -/
inductive Collection where
  | mk (uuid name : String) (children : List Collection)
      (publications : List Paper) : Collection

def Collection.uuid : Collection → String
  | .mk u _ _ _ => u

def Collection.name : Collection → String
  | .mk _ n _ _ => n

def Collection.children : Collection → List Collection
  | .mk _ _ c _ => c

def Collection.publications : Collection → List Paper
  | .mk _ _ _ p => p

/- ---------------------------------------------------------------- -/
/- Filesystem model and exporter configuration                       -/
/- ---------------------------------------------------------------- -/

/-- The output filesystem: an association list from path to file size. -/
abbrev FS := List (String × Nat)

/-- `os.path.exists`. -/
def fsExists (fs : FS) (p : String) : Bool := (List.lookup p fs).isSome

/-- `os.stat(p).st_size` (only consulted after an existence check). -/
def fsSize (fs : FS) (p : String) : Nat := (List.lookup p fs).getD 0

/-- `os.remove`. -/
def fsRemove (fs : FS) (p : String) : FS := fs.filter (fun e => !(e.1 == p))

/-- Creating/overwriting a file of a given size. -/
def fsWrite (fs : FS) (p : String) (n : Nat) : FS := (p, n) :: fsRemove fs p

/-- The exporter's configuration fields set in `Exporter.__init__` and by
`Exporter.create`'s argument parsing: `embed_container`, `annotate`,
`path`, `overwrite`. -/
structure Config where
  embed_container : Bool
  annotate : Bool
  path : String
  overwrite : Bool
  deriving DecidableEq

/- ---------------------------------------------------------------- -/
/- Attachment resolver (`Exporter.output_file`, lines 212-266)       -/
/- ---------------------------------------------------------------- -/

/-- The derived-file destination computed at lines 241-242:
`op.join(self.path, RE_FILECHARS.sub("_", f.uuid) + "-" + op.basename(f.path))`. -/
def destOf (cfg : Config) (f : File) : String :=
  joinPath cfg.path (sanitize f.uuid ++ ("-" ++ basename f.path))

/-- The attachment fragment lines written before path resolution
(lines 218-234). -/
def attachmentHead (f : File) (indent : Nat) : String :=
  write indent ("<z:Attachment rdf:about=\"#" ++ (f.uuid ++ "\">\n")) ++
  (write (indent + 1) "<z:itemType>attachment</z:itemType>\n" ++
  (writeIf (truthy f.title) (indent + 1)
      ("<dc:title>" ++ (formatArg (escape f.title) ++ "</dc:title>\n")) ++
  writeIf (truthy f.mimetype) (indent + 1)
      ("<link:type>" ++ (formatArg f.mimetype ++ "</link:type>\n"))))

/-- The attachment fragment lines written after path resolution
(lines 262-264), referencing the resolved path. -/
def attachmentTail (path : String) (indent : Nat) : String :=
  write (indent + 1)
      ("<rdf:resource rdf:resource=\"" ++ (escapeString path ++ "\"/>\n")) ++
  write indent "</z:Attachment>\n"

/-- Filesystem state after the `except` clause's cleanup (lines 248-253):
the embedding failure may have partially written the destination, and the
handler removes the destination if it exists. -/
def cleanupDest (fs : FS) (dest : String) (e : EmbedFail) : FS :=
  let fs1 := match e.writtenSize with
    | some n => fsWrite fs dest n
    | none => fs
  if fsExists fs1 dest then fsRemove fs1 dest else fs1

/-- Result of `output_file` when no exception propagates: the fragment text
appended to the side buffer, the filesystem afterwards, how many times
`embed_annotations` was invoked, the boolean return value (whether the
attachment is included), and how many `logging.error` calls happened. -/
structure FileOut where
  frag : String
  fs : FS
  embedCalls : Nat
  included : Bool
  logged : Nat
  deriving DecidableEq

/-- `Exporter.output_file`.  A propagating exception (re-raised at
line 260) carries the failure and the filesystem state after cleanup. -/
def output_file (cfg : Config) (f : File) (fs : FS) (indent : Nat) :
    Except (EmbedFail × FS) FileOut :=
  if f.fileExists = false then .ok ⟨"", fs, 0, false, 0⟩
  else if cfg.annotate && f.hasExternalAnnotations then
    let dest := destOf cfg f
    if !(fsExists fs dest) || (fsSize fs dest == 0) then
      match f.embed with
      | .succeeds n =>
          .ok ⟨attachmentHead f indent ++ attachmentTail dest indent,
               fsWrite fs dest n, 1, true, 0⟩
      | .fails e =>
          match e.kind with
          | .otherError => .error (e, cleanupDest fs dest e)
          | _ =>
              .ok ⟨attachmentHead f indent ++ attachmentTail f.path indent,
                   cleanupDest fs dest e, 1, true, 1⟩
    else
      .ok ⟨attachmentHead f indent ++ attachmentTail dest indent, fs, 0, true, 0⟩
  else
    .ok ⟨attachmentHead f indent ++ attachmentTail f.path indent, fs, 0, true, 0⟩

/-- The attachment loop of `output_paper` (lines 97-100): fragments go to
the `appendout` side buffer, and the uuid of every file whose
`output_file` returned `True` is collected. -/
def processFiles (cfg : Config) : List File → FS → Nat →
    Except (EmbedFail × FS) (String × List String × FS)
  | [], fs, _ => .ok ("", [], fs)
  | f :: rest, fs, indent =>
    match output_file cfg f fs indent with
    | .error efs => .error efs
    | .ok r =>
      match processFiles cfg rest r.fs indent with
      | .error efs => .error efs
      | .ok (s, atts, fs2) =>
          .ok (r.frag ++ s, (if r.included then [f.uuid] else []) ++ atts, fs2)

/- ---------------------------------------------------------------- -/
/- Entity serializers (lines 91-279)                                 -/
/- ---------------------------------------------------------------- -/

/-- `Exporter.output_author` (lines 205-210): an inline `foaf:Person`
fragment; the source interpolates `author.surname` and `author.firstname`
directly (no `escape` call, no identifier). -/
def output_author (a : Author) (indent : Nat) : String :=
  write indent "<foaf:Person>\n" ++
  (write (indent + 1) ("<foaf:surname>" ++ (a.surname ++ "</foaf:surname>\n")) ++
  (write (indent + 1) ("<foaf:givenname>" ++ (a.firstname ++ "</foaf:givenname>\n")) ++
  write indent "</foaf:Person>\n"))

/-- Opening tag of a publication (line 102): the tag is
`BIBTYPE.get(type, "Article")`. -/
def openTagOf (p : Paper) (indent : Nat) : String :=
  write indent ("<bib:" ++ (bibTag p.type ++ (" rdf:about=\"#" ++ (p.uuid ++ "\">\n"))))

/-- Authors sequence block (lines 104-110), emitted only when the author
list is non-empty. -/
def authorsBlockOf (p : Paper) (indent : Nat) : String :=
  if p.authors.isEmpty then "" else
  write (indent + 1) "<bib:authors><rdf:Seq>\n" ++
  (String.join (p.authors.map (fun a =>
      write (indent + 2) "<rdf:li>\n" ++
      (output_author a (indent + 3) ++ write (indent + 2) "</rdf:li>\n"))) ++
  write (indent + 1) "</rdf:Seq></bib:authors>\n")

/-- The `z:itemType` line (line 112), carrying the `ZTYPE` mapping. -/
def itemTypeLine (zt : String) (indent : Nat) : String :=
  write (indent + 1) ("<z:itemType>" ++ (zt ++ "</z:itemType>\n"))

/-- Title line (line 113), escaped. -/
def titleLineOf (p : Paper) (indent : Nat) : String :=
  write (indent + 1) ("<dc:title>" ++ (escapeString p.title ++ "</dc:title>\n"))

/-- Abstract line (lines 115-122): guarded by `hasattr` and then by the
truthiness of the abstract itself. -/
def abstractLineOf (p : Paper) (indent : Nat) : String :=
  match p.abstract with
  | some a =>
      writeIf (truthy a) (indent + 1)
        ("<dcterms:abstract>" ++ (formatArg (escape a) ++ "</dcterms:abstract>\n"))
  | none => ""

/-- Volume line (lines 124-130), gated on `volume is not None`. -/
def volumeLineOf (p : Paper) (indent : Nat) : String :=
  match p.volume with
  | none => ""
  | some _ =>
      write (indent + 1)
        ("<prism:volume>" ++ (formatArg (escape p.volume) ++ "</prism:volume>\n"))

/-- Number line (lines 131-137): the source gates it on `volume`, not on
`number`, and formats `escape(number)`, which renders `None` as `"None"`
when number is absent. -/
def numberLineOf (p : Paper) (indent : Nat) : String :=
  match p.volume with
  | none => ""
  | some _ =>
      write (indent + 1)
        ("<prism:number>" ++ (formatArg (escape p.number) ++ "</prism:number>\n"))

/-- DOI line (lines 138-144). -/
def doiLineOf (p : Paper) (indent : Nat) : String :=
  match p.doi with
  | none => ""
  | some _ =>
      write (indent + 1)
        ("<dc:identifier>DOI " ++ (formatArg (escape p.doi) ++ "</dc:identifier>\n"))

/-- Pages line (lines 145-146). -/
def pagesLineOf (p : Paper) (indent : Nat) : String :=
  match p.pages with
  | none => ""
  | some _ =>
      write (indent + 1)
        ("<bib:pages>" ++ (formatArg (escape p.pages) ++ "</bib:pages>\n"))

/-- One `link:link` reference per successfully resolved attachment
(lines 148-154). -/
def linksBlockOf (atts : List String) (indent : Nat) : String :=
  String.join (atts.map (fun u =>
    write (indent + 1) ("<link:link rdf:resource=\"#" ++ (escapeString u ++ "\"/>\n"))))

/-- Keyword subject markers (lines 156-157; the source writes no trailing
newline here). -/
def keywordsBlockOf (p : Paper) (indent : Nat) : String :=
  String.join (p.keywords.map (fun k =>
    write (indent + 1) ("<dc:subject>" ++ (escapeString k ++ "</dc:subject>"))))

/-- The `#read` subject marker (lines 159-160; no trailing newline). -/
def readLineOf (p : Paper) (indent : Nat) : String :=
  if p.read then write (indent + 1) "<dc:subject>#read</dc:subject>" else ""

/-- Date line (lines 175-178), emitted only when the formatted date is
non-empty; the date string is not escaped. -/
def dateLineOf (p : Paper) (indent : Nat) : String :=
  writeIf (p.dateStr.length != 0) (indent + 1)
    ("<dc:date>" ++ (p.dateStr ++ "</dc:date>\n"))

/-- Submission timestamp line (lines 180-186), emitted only when
`creationdate` is truthy. -/
def dateSubmittedLineOf (p : Paper) (indent : Nat) : String :=
  match p.creationdate with
  | none => ""
  | some cd =>
      write (indent + 1)
        ("<dcterms:dateSubmitted>" ++ (cd ++ "</dcterms:dateSubmitted>\n"))

/-- Note reference lines (lines 187-193; the format string carries a
leading space inside the element text). -/
def noteRefsOf (p : Paper) (indent : Nat) : String :=
  String.join (p.notes.map (fun n =>
    write (indent + 1) (" <dcterms:isReferencedBy rdf:resource=\"#" ++ (n.uuid ++ "\"/>\n"))))

/-- Closing tag of a publication (line 195). -/
def closeTagOf (p : Paper) (indent : Nat) : String :=
  write indent ("</bib:" ++ (bibTag p.type ++ ">\n\n"))

/-- A standalone memo fragment for one note (lines 197-200): the source
writes `escape(note.html)` for the body. -/
def output_memo (n : Note) (indent : Nat) : String :=
  write indent ("<bib:Memo rdf:about=\"#" ++ (n.uuid ++ "\">")) ++
  (write (indent + 1) (escapeString n.html) ++ write indent "</bib:Memo>")

/-- All memo fragments of a paper, in note order. -/
def memosOf (p : Paper) (indent : Nat) : String :=
  String.join (p.notes.map (fun n => output_memo n indent))

/-- The lines emitted after the container block: date, submission
timestamp, note references, closing tag, memo fragments (lines 175-200). -/
def tailLinesOf (p : Paper) (indent : Nat) : String :=
  dateLineOf p indent ++ (dateSubmittedLineOf p indent ++ (noteRefsOf p indent ++
  (closeTagOf p indent ++ memosOf p indent)))

/-- Errors that can abort an export: the `KeyError` from the strict `ZTYPE`
lookup, or a propagating annotation-embedding failure. -/
inductive ExportErr where
  | keyError (k : String)
  | embedFailed (e : EmbedFail)
  deriving DecidableEq

/-- `Exporter.output_paper` (lines 91-203).  Attachments are first resolved
into the `appendout` side buffer; the publication's own fragment is then
written to the primary stream, with the side buffer appended after the
memo fragments.  An error result carries the text this call wrote to the
primary stream before raising. -/
def output_paper (cfg : Config) (p : Paper) (fs : FS) (indent : Nat) :
    Except (ExportErr × String × FS) (String × FS) :=
  match p with
  | .mk _ _ _ _ _ _ _ _ _ _ cont _ _ _ _ _ =>
    match processFiles cfg p.files fs indent with
    | .error (e, fsE) => .error (.embedFailed e, "", fsE)
    | .ok (appendout, atts, fs1) =>
      match ztypeLookup p.type with
      | none =>
          .error (.keyError p.type, openTagOf p indent ++ authorsBlockOf p indent, fs1)
      | some zt =>
        match cont with
        | none =>
            .ok (openTagOf p indent ++ (authorsBlockOf p indent ++ (itemTypeLine zt indent ++
              (titleLineOf p indent ++ (abstractLineOf p indent ++ (volumeLineOf p indent ++
              (numberLineOf p indent ++ (doiLineOf p indent ++ (pagesLineOf p indent ++
              (linksBlockOf atts indent ++ (keywordsBlockOf p indent ++ (readLineOf p indent ++
              ("" ++ (tailLinesOf p indent ++ appendout))))))))))))), fs1)
        | some c =>
          if cfg.embed_container then
            match output_paper cfg c fs1 (indent + 2) with
            | .error (e, s, fs2) =>
                .error (e, openTagOf p indent ++ (authorsBlockOf p indent ++ (itemTypeLine zt indent ++
                  (titleLineOf p indent ++ (abstractLineOf p indent ++ (volumeLineOf p indent ++
                  (numberLineOf p indent ++ (doiLineOf p indent ++ (pagesLineOf p indent ++
                  (linksBlockOf atts indent ++ (keywordsBlockOf p indent ++ (readLineOf p indent ++
                  (write (indent + 1) "<dcterms:isPartOf>\n" ++ s)))))))))))), fs2)
            | .ok (s, fs2) =>
                .ok (openTagOf p indent ++ (authorsBlockOf p indent ++ (itemTypeLine zt indent ++
                  (titleLineOf p indent ++ (abstractLineOf p indent ++ (volumeLineOf p indent ++
                  (numberLineOf p indent ++ (doiLineOf p indent ++ (pagesLineOf p indent ++
                  (linksBlockOf atts indent ++ (keywordsBlockOf p indent ++ (readLineOf p indent ++
                  ((write (indent + 1) "<dcterms:isPartOf>\n" ++
                    (s ++ write (indent + 1) "</dcterms:isPartOf>\n")) ++
                  (tailLinesOf p indent ++ appendout))))))))))))), fs2)
          else
            .ok (openTagOf p indent ++ (authorsBlockOf p indent ++ (itemTypeLine zt indent ++
              (titleLineOf p indent ++ (abstractLineOf p indent ++ (volumeLineOf p indent ++
              (numberLineOf p indent ++ (doiLineOf p indent ++ (pagesLineOf p indent ++
              (linksBlockOf atts indent ++ (keywordsBlockOf p indent ++ (readLineOf p indent ++
              (write (indent + 1) ("<dcterms:isPartOf rdf:resource=\"" ++ (c.uuid ++ "\"/>\n")) ++
              (tailLinesOf p indent ++ appendout))))))))))))), fs1)

/-- `Exporter.output_collection` (lines 268-279): reference-only links for
children and member publications. -/
def output_collection (c : Collection) (indent : Nat) : String :=
  write indent ("<z:Collection rdf:about=\"#" ++ (c.uuid ++ "\">\n")) ++
  (write (indent + 1) ("<dc:title>" ++ (escapeString c.name ++ "</dc:title>\n")) ++
  (String.join (c.children.map (fun ch =>
      write (indent + 1) ("<dcterms:hasPart rdf:resource=\"#" ++ (ch.uuid ++ "\"/>\n")))) ++
  (String.join (c.publications.map (fun q =>
      write (indent + 1) ("<dcterms:hasPart rdf:resource=\"#" ++ (q.uuid ++ "\"/>\n")))) ++
  write indent "</z:Collection>\n\n")))

/-- The fixed namespace envelope header written at lines 70-81. -/
def rdfHeader : String :=
  "<rdf:RDF\n         xmlns:rdf=\"http://www.w3.org/1999/02/22-rdf-syntax-ns#\"\n         xmlns:z=\"http://www.zotero.org/namespaces/export#\"\n         xmlns:dcterms=\"http://purl.org/dc/terms/\"\n         xmlns:bib=\"http://purl.org/net/biblio#\"\n         xmlns:foaf=\"http://xmlns.com/foaf/0.1/\"\n         xmlns:link=\"http://purl.org/rss/1.0/modules/link/\"\n         xmlns:dc=\"http://purl.org/dc/elements/1.1/\"\n         xmlns:vcard=\"http://nwalsh.com/rdf/vCard#\"\n         xmlns:prism=\"http://prismstandard.org/namespaces/1.2/basic/\">\n\n"

/-- The paper loop of `Exporter.export` (lines 83-84), at indent 1.  An
error result carries the concatenation of everything written to the
`.rdf` stream by the loop before the exception. -/
def exportPapers (cfg : Config) : List Paper → FS →
    Except (ExportErr × String × FS) (String × FS)
  | [], fs => .ok ("", fs)
  | p :: rest, fs =>
    match output_paper cfg p fs 1 with
    | .error (e, s, fs1) => .error (e, s, fs1)
    | .ok (s, fs1) =>
      match exportPapers cfg rest fs1 with
      | .error (e, s2, fs2) => .error (e, s ++ s2, fs2)
      | .ok (s2, fs2) => .ok (s ++ s2, fs2)

/-- `Exporter.export` (lines 63-89; named `export` in the source, which is
a reserved word here): header, papers, collections, closing envelope tag.
The closing tag is only ever part of a successful result; an error carries
the partial stream contents. -/
def exportRdf (cfg : Config) (pubs : List Paper) (colls : List Collection)
    (fs : FS) : Except (ExportErr × String × FS) (String × FS) :=
  match exportPapers cfg pubs fs with
  | .error (e, s, fs1) => .error (e, rdfHeader ++ s, fs1)
  | .ok (s, fs1) =>
      .ok (rdfHeader ++ (s ++ (String.join (colls.map (fun c => output_collection c 1)) ++
        "</rdf:RDF>\n")), fs1)

/-- Modelled from the spec: XML-unescaping of the three entities the
escaper produces (`&amp;`, `&lt;`, `&gt;`), as used by the round-trip
property of §8 of the specification; the exporter itself never unescapes. -/
def unescapeChars : List Char → List Char
  | [] => []
  | '&' :: 'a' :: 'm' :: 'p' :: ';' :: rest => '&' :: unescapeChars rest
  | '&' :: 'l' :: 't' :: ';' :: rest => '<' :: unescapeChars rest
  | '&' :: 'g' :: 't' :: ';' :: rest => '>' :: unescapeChars rest
  | c :: rest => c :: unescapeChars rest

/-- Modelled from the spec: XML-unescaping on strings. -/
def unescapeString (s : String) : String := String.mk (unescapeChars s.data)

/- ---------------------------------------------------------------- -/
/- Concrete example inputs used by witnesses and counterexamples     -/
/- ---------------------------------------------------------------- -/

/-- Default configuration of `Exporter.__init__` (no annotation). -/
def cfgPlain : Config := ⟨true, false, "", false⟩

/-- Configuration with `--annotate` set and output path `out`. -/
def cfgAnn : Config := ⟨true, true, "out", false⟩

/-- The publication of the specification's end-to-end example. -/
def c1paper : Paper :=
  .mk "p1" "article-journal" "A Study" none none none none none [] true none ""
    none [⟨"Jane", "Doe"⟩] [] []

/-- Successful serialization result for `c1paper`. -/
def c1res : String × FS :=
  (output_paper cfgPlain c1paper [] 1).toOption.getD ("", [])

/-- A note whose HTML body contains markup characters. -/
def c2note : Note := ⟨"n1", none, "<p>A & B</p>"⟩

/-- A publication carrying `c2note`. -/
def c2paper : Paper :=
  .mk "p2" "book" "T" none none none none none [] false none "" none [] [c2note] []

/-- Successful serialization result for `c2paper`. -/
def c2res : String × FS :=
  (output_paper cfgPlain c2paper [] 1).toOption.getD ("", [])

/-- An author whose surname contains XML-special characters. -/
def c3author : Author := ⟨"Jane", "D<oe&"⟩

/-- Configuration with both `--annotate` and `--overwrite` set. -/
def c4cfg : Config := ⟨true, true, "out", true⟩

/-- An annotated attachment whose embedding would succeed if invoked. -/
def c4file : File := ⟨"u1", "d/a.pdf", none, none, true, true, .succeeds 10⟩

/-- A filesystem on which the derived file already exists, non-empty. -/
def c4fs : FS := [("out/u1-a.pdf", 5)]

/-- A publication whose type is missing from `ZTYPE`. -/
def badPaper : Paper :=
  .mk "q1" "mystery" "T" none none none none none [] false none "" none [] [] []

/-- An annotated attachment whose embedding fails with a recoverable
`IOError` after partially writing 3 bytes. -/
def recFile : File := ⟨"u9", "d/b.pdf", none, none, true, true, .fails ⟨.ioError, some 3⟩⟩

/-- A missing attachment (`exists()` returns false). -/
def ghostFile : File := ⟨"u2", "gone.pdf", none, none, false, false, .succeeds 0⟩

/-- An annotated attachment whose embedding fails with an unrecoverable
exception class. -/
def failFile : File := ⟨"u3", "d/c.pdf", none, none, true, true, .fails ⟨.otherError, none⟩⟩

/-- A publication owning `failFile`. -/
def c9paper : Paper :=
  .mk "p9" "book" "T" none none none none none [] false none "" none [] [] [failFile]

/-- A publication with a volume but no number. -/
def c10paper : Paper :=
  .mk "pv" "book" "T" none (some "12") none none none [] false none "" none [] [] []

/-- Successful serialization result for `c10paper`. -/
def c10res : String × FS :=
  (output_paper cfgPlain c10paper [] 1).toOption.getD ("", [])

/- ---------------------------------------------------------------- -/
/- Helper lemmas                                                     -/
/- ---------------------------------------------------------------- -/

/-- A removed path is no longer found by lookup. -/
theorem lookup_fsRemove (t : FS) (q : String) :
    List.lookup q (fsRemove t q) = none := by
  induction t with
  | nil => rfl
  | cons kv tl ih =>
    rcases kv with ⟨k, v⟩
    simp only [fsRemove, List.filter] at ih ⊢
    cases hqk : (k == q) with
    | true => simpa [hqk] using ih
    | false =>
      have hqk2 : (q == k) = false := by
        cases hqk3 : (q == k)
        · rfl
        · have h1 : q = k := by simpa using hqk3
          rw [h1, beq_self_eq_true] at hqk
          exact absurd hqk (by simp)
      simpa [hqk, List.lookup, hqk2] using ih

/-- Removing a path removes it: `os.remove` leaves no entry behind. -/
theorem fsExists_fsRemove (fs : FS) (q : String) : fsExists (fsRemove fs q) q = false := by
  simp [fsExists, lookup_fsRemove]

/-- After the exception handler's cleanup the destination file is gone. -/
theorem fsExists_cleanupDest (fs : FS) (dest : String) (e : EmbedFail) :
    fsExists (cleanupDest fs dest e) dest = false := by
  simp only [cleanupDest]
  split
  · exact fsExists_fsRemove _ _
  · rename_i h
    simpa using h

/-- Every successful `output_paper` result decomposes into the emission
order of the source: opening tag, authors, item type, title, abstract,
volume, number, DOI, pages, attachment links, keywords, read marker,
container block, tail lines, side buffer. -/
theorem output_paper_ok_shape (cfg : Config) (p : Paper) (fs : FS) (i : Nat)
    (r : String × FS) (h : output_paper cfg p fs i = .ok r) :
    ∃ zt atts contStr app,
      ztypeLookup p.type = some zt ∧
      r.1 = openTagOf p i ++ (authorsBlockOf p i ++ (itemTypeLine zt i ++
        (titleLineOf p i ++ (abstractLineOf p i ++ (volumeLineOf p i ++
        (numberLineOf p i ++ (doiLineOf p i ++ (pagesLineOf p i ++
        (linksBlockOf atts i ++ (keywordsBlockOf p i ++ (readLineOf p i ++
        (contStr ++ (tailLinesOf p i ++ app))))))))))))) := by
  rcases p with ⟨u, ty, ti, ab, vo, nu, dd, pg, kw, rd, co, ds, cd, au, nt, fl⟩
  cases co with
  | none =>
    simp only [output_paper, Paper.files, Paper.type] at h
    rcases hpf : processFiles cfg fl fs i with ⟨e1, fsE1⟩ | ⟨app, atts, fs1⟩
    · rw [hpf] at h; exact Except.noConfusion h
    · simp only [hpf] at h
      rcases hzt : ztypeLookup ty with _ | zt
      · rw [hzt] at h; exact Except.noConfusion h
      · simp only [hzt] at h
        injection h with h'
        refine ⟨zt, atts, "", app, ?_, ?_⟩
        · simp only [Paper.type]; exact hzt
        · rw [← h']
  | some c =>
    simp only [output_paper, Paper.files, Paper.type] at h
    rcases hpf : processFiles cfg fl fs i with ⟨e1, fsE1⟩ | ⟨app, atts, fs1⟩
    · rw [hpf] at h; exact Except.noConfusion h
    · simp only [hpf] at h
      rcases hzt : ztypeLookup ty with _ | zt
      · rw [hzt] at h; exact Except.noConfusion h
      · simp only [hzt] at h
        by_cases hec : cfg.embed_container = true
        · rw [if_pos hec] at h
          rcases hrec : output_paper cfg c fs1 (i + 2) with ⟨e2, s2, fs2⟩ | ⟨s2, fs2⟩
          · rw [hrec] at h; exact Except.noConfusion h
          · simp only [hrec] at h
            injection h with h'
            refine ⟨zt, atts,
              write (i + 1) "<dcterms:isPartOf>\n" ++
                (s2 ++ write (i + 1) "</dcterms:isPartOf>\n"), app, ?_, ?_⟩
            · simp only [Paper.type]; exact hzt
            · rw [← h']
        · rw [if_neg hec] at h
          injection h with h'
          refine ⟨zt, atts,
            write (i + 1) ("<dcterms:isPartOf rdf:resource=\"" ++ (c.uuid ++ "\"/>\n")),
            app, ?_, ?_⟩
          · simp only [Paper.type]; exact hzt
          · rw [← h']

/-- A publication whose type is not in `ZTYPE` always makes `output_paper`
raise, whatever the filesystem and indentation. -/
theorem output_paper_badtype (cfg : Config) (p : Paper)
    (hz : ztypeLookup p.type = none) (fs : FS) (i : Nat) :
    ∃ e s fs', output_paper cfg p fs i = .error (e, s, fs') := by
  rcases p with ⟨u, ty, ti, ab, vo, nu, dd, pg, kw, rd, co, ds, cd, au, nt, fl⟩
  simp only [Paper.type] at hz
  simp only [output_paper, Paper.files, Paper.type]
  rcases hpf : processFiles cfg fl fs i with ⟨e1, fsE1⟩ | ⟨app, atts, fs1⟩
  · exact ⟨_, _, _, rfl⟩
  · rw [hz]
    exact ⟨_, _, _, rfl⟩

/-- The paper loop fails whenever some listed publication has an unmapped
type. -/
theorem exportPapers_err (cfg : Config) :
    ∀ (pubs : List Paper) (fs : FS) (p : Paper), p ∈ pubs →
      ztypeLookup p.type = none →
      ∃ e s fs', exportPapers cfg pubs fs = .error (e, s, fs') := by
  intro pubs
  induction pubs with
  | nil => intro fs p hp; exact absurd hp (List.not_mem_nil p)
  | cons q rest ih =>
    intro fs p hp hz
    rcases hq : output_paper cfg q fs 1 with ⟨e1, s1, fs1⟩ | ⟨s1, fs1⟩
    · refine ⟨e1, s1, fs1, ?_⟩
      simp only [exportPapers]
      rw [hq]
    · rcases List.mem_cons.mp hp with rfl | hrest
      · obtain ⟨e, s, fs', hq'⟩ := output_paper_badtype cfg p hz fs 1
        rw [hq] at hq'
        exact Except.noConfusion hq'
      · obtain ⟨e, s2, fs2, h2⟩ := ih fs1 p hrest hz
        refine ⟨e, s1 ++ s2, fs2, ?_⟩
        simp only [exportPapers, hq, h2]

/-- Unescaping inverts character-wise escaping. -/
theorem unescapeChars_escapeChars : ∀ l : List Char, unescapeChars (escapeChars l) = l := by
  intro l
  induction l with
  | nil => rfl
  | cons c cs ih =>
    by_cases h1 : c = '&'
    · subst h1
      show unescapeChars ('&' :: 'a' :: 'm' :: 'p' :: ';' :: escapeChars cs) = '&' :: cs
      rw [show ∀ r, unescapeChars ('&' :: 'a' :: 'm' :: 'p' :: ';' :: r) = '&' :: unescapeChars r
            from fun _ => rfl, ih]
    · by_cases h2 : c = '<'
      · subst h2
        show unescapeChars ('&' :: 'l' :: 't' :: ';' :: escapeChars cs) = '<' :: cs
        rw [show ∀ r, unescapeChars ('&' :: 'l' :: 't' :: ';' :: r) = '<' :: unescapeChars r
              from fun _ => rfl, ih]
      · by_cases h3 : c = '>'
        · subst h3
          show unescapeChars ('&' :: 'g' :: 't' :: ';' :: escapeChars cs) = '>' :: cs
          rw [show ∀ r, unescapeChars ('&' :: 'g' :: 't' :: ';' :: r) = '>' :: unescapeChars r
                from fun _ => rfl, ih]
        · have he : escapeChars (c :: cs) = c :: escapeChars cs := by
            simp only [escapeChars, escChar, if_neg h1, if_neg h2, if_neg h3,
              List.singleton_append]
          rw [he, unescapeChars.eq_def]
          split
          · rename_i heq; exact absurd heq (by simp)
          · rename_i heq; injection heq with h4 _; exact absurd h4 h1
          · rename_i heq; injection heq with h4 _; exact absurd h4 h1
          · rename_i heq; injection heq with h4 _; exact absurd h4 h1
          · rename_i heq; injection heq with h4 h5; rw [← h4, ← h5, ih]

/- ---------------------------------------------------------------- -/
/- Claim theorems                                                    -/
/- ---------------------------------------------------------------- -/

/-- Claim C1, counterexample: for the known type `article-journal` the
mapping table yields `journalArticle`, yet the emitted top-level element of
the specification's own example publication is tagged `bib:Article` — the
fixed default — and not `bib:journalArticle`. -/
theorem c1_item_tag_counterexample :
    ztypeLookup "article-journal" = some "journalArticle" ∧
    ("Article" : String) ≠ "journalArticle" ∧
    (output_paper cfgPlain c1paper [] 1).toOption.map
        (fun r => r.1.data.take "  <bib:Article rdf:about=\"#p1\">\n".data.length)
      = some "  <bib:Article rdf:about=\"#p1\">\n".data := by
  refine ⟨rfl, by decide, by decide⟩

/-- Claim C1, amended: the tag of the emitted top-level item element is
always the fixed default `Article`, because the display-tag table `BIBTYPE`
is empty; the mapped schema type appears only in the `z:itemType` child
element.  Every successful serialization opens with that default tag. -/
theorem c1_item_tag_default_amended :
    (∀ t, bibTag t = "Article") ∧
    (∀ (cfg : Config) (p : Paper) (fs : FS) (i : Nat) (r : String × FS),
      output_paper cfg p fs i = .ok r → ∃ rest, r.1 = openTagOf p i ++ rest) := by
  refine ⟨fun t => rfl, ?_⟩
  intro cfg p fs i r h
  obtain ⟨zt, atts, contStr, app, hz, heq⟩ := output_paper_ok_shape cfg p fs i r h
  exact ⟨_, heq⟩

/-- Claim C1, witness for the amended theorem at the example publication. -/
theorem c1_item_tag_default_amended_witness :
    bibTag "article-journal" = "Article" ∧
    ∃ rest, c1res.1 = openTagOf c1paper 1 ++ rest :=
  ⟨c1_item_tag_default_amended.1 "article-journal",
   c1_item_tag_default_amended.2 cfgPlain c1paper [] 1 c1res rfl⟩

/-- Claim C2, counterexample: the memo fragment of a serialized publication
does not contain the note's HTML body verbatim; it contains the XML-escaped
body instead (the source applies `escape(note.html)` at line 199). -/
theorem c2_memo_escaped_counterexample :
    ¬ ("<p>A & B</p>".data <:+: c2res.1.data) ∧
    ((escapeString "<p>A & B</p>").data <:+: c2res.1.data) ∧
    ((output_memo c2note 1).data <:+: c2res.1.data) := by
  refine ⟨by decide, by decide, by decide⟩

/-- Claim C2, amended: the standalone memo fragment emitted after the
publication's closing tag contains the note's HTML body XML-escaped, not
verbatim. -/
theorem c2_memo_escaped_amended (n : Note) (i : Nat) :
    ∃ a b, output_memo n i = a ++ (escapeString n.html ++ b) := by
  refine ⟨write i ("<bib:Memo rdf:about=\"#" ++ (n.uuid ++ "\">")) ++ indentStr (i + 1),
    write i "</bib:Memo>", ?_⟩
  simp only [output_memo, write, String.append_assoc]

/-- Claim C3, counterexample: the serialized author fragment contains the
raw surname `D<oe&` and not its XML-escaped form — the source interpolates
the names without calling `escape`. -/
theorem c3_author_unescaped_counterexample :
    ("D<oe&".data <:+: (output_author c3author 1).data) ∧
    ¬ ((escapeString "D<oe&").data <:+: (output_author c3author 1).data) := by
  refine ⟨by decide, by decide⟩

/-- Claim C3, amended: the inline `foaf:Person` fragment embeds the surname
and the given name verbatim, without XML-escaping (and, as claimed, carries
no identifier — the template provides none). -/
theorem c3_author_unescaped_amended (a : Author) (i : Nat) :
    (∃ x y, output_author a i = x ++ (a.surname ++ y)) ∧
    (∃ u v, output_author a i = u ++ (a.firstname ++ v)) := by
  constructor
  · refine ⟨write i "<foaf:Person>\n" ++ (indentStr (i + 1) ++ "<foaf:surname>"),
      "</foaf:surname>\n" ++
        (write (i + 1) ("<foaf:givenname>" ++ (a.firstname ++ "</foaf:givenname>\n")) ++
         write i "</foaf:Person>\n"), ?_⟩
    simp only [output_author, write, String.append_assoc]
  · refine ⟨write i "<foaf:Person>\n" ++
        (write (i + 1) ("<foaf:surname>" ++ (a.surname ++ "</foaf:surname>\n")) ++
         (indentStr (i + 1) ++ "<foaf:givenname>")),
      "</foaf:givenname>\n" ++ write i "</foaf:Person>\n", ?_⟩
    simp only [output_author, write, String.append_assoc]

/-- Claim C4: even with `overwrite` set, an existing non-empty destination
file makes `output_file` skip the embedding operation (zero invocations)
and reuse the existing derived file — the parsed `overwrite` flag is never
consulted by the resolver, contradicting its own `--overwrite` help text. -/
theorem c4_overwrite_flag_ignored :
    c4cfg.overwrite = true ∧
    destOf c4cfg c4file = "out/u1-a.pdf" ∧
    fsExists c4fs "out/u1-a.pdf" = true ∧
    fsSize c4fs "out/u1-a.pdf" = 5 ∧
    output_file c4cfg c4file c4fs 1 =
      .ok ⟨attachmentHead c4file 1 ++ attachmentTail "out/u1-a.pdf" 1, c4fs, 0, true, 0⟩ := by
  refine ⟨rfl, by decide, rfl, rfl, rfl⟩

/-- Claim C5: a publication whose type is absent from `ZTYPE` makes the
whole export fail with a propagating error — the closing envelope tag is
only ever emitted in the successful branch, so no output is finalized and
the failure is surfaced to the caller rather than skipped. -/
theorem c5_unknown_type_aborts (cfg : Config) (pubs : List Paper)
    (colls : List Collection) (fs : FS) (p : Paper)
    (hp : p ∈ pubs) (hz : ztypeLookup p.type = none) :
    ∃ e s fs', exportRdf cfg pubs colls fs = .error (e, s, fs') := by
  obtain ⟨e, s, fs1, h⟩ := exportPapers_err cfg pubs fs p hp hz
  refine ⟨e, rdfHeader ++ s, fs1, ?_⟩
  simp only [exportRdf]
  rw [h]

/-- Claim C5, witness at a concrete unmapped type. -/
theorem c5_unknown_type_aborts_witness :
    ∃ e s fs', exportRdf cfgPlain [badPaper] [] [] = .error (e, s, fs') :=
  c5_unknown_type_aborts cfgPlain [badPaper] [] [] badPaper
    (List.mem_singleton.mpr rfl) rfl

/-- Claim C6: when the embedding operation fails, the destination file is
deleted whatever the failure class; a recognized recoverable class
(`PdfReadError`, `IOError`) is logged at error level and the fragment falls
back to the file's original path with the export continuing, while any
other exception class propagates to the caller. -/
theorem c6_embed_failure_policy (cfg : Config) (f : File) (fs : FS) (i : Nat)
    (e : EmbedFail) (ha : cfg.annotate = true) (hx : f.hasExternalAnnotations = true)
    (he : f.fileExists = true) (hb : f.embed = .fails e)
    (hcond : (!(fsExists fs (destOf cfg f)) || (fsSize fs (destOf cfg f) == 0)) = true) :
    fsExists (cleanupDest fs (destOf cfg f) e) (destOf cfg f) = false ∧
    (e.kind ≠ .otherError →
      output_file cfg f fs i =
        .ok ⟨attachmentHead f i ++ attachmentTail f.path i,
             cleanupDest fs (destOf cfg f) e, 1, true, 1⟩) ∧
    (e.kind = .otherError →
      output_file cfg f fs i = .error (e, cleanupDest fs (destOf cfg f) e)) := by
  refine ⟨fsExists_cleanupDest fs _ e, ?_, ?_⟩
  · intro hk
    rcases e with ⟨k, ws⟩
    cases k
    · simp [output_file, he, ha, hx, hb, hcond]
    · simp [output_file, he, ha, hx, hb, hcond]
    · exact absurd rfl hk
  · intro hk
    rcases e with ⟨k, ws⟩
    cases k
    · exact absurd hk (by simp)
    · exact absurd hk (by simp)
    · simp [output_file, he, ha, hx, hb, hcond]

/-- Claim C6, witness at a concrete recoverable failure. -/
theorem c6_embed_failure_policy_witness :
    fsExists (cleanupDest [] (destOf cfgAnn recFile) ⟨.ioError, some 3⟩)
        (destOf cfgAnn recFile) = false ∧
    ((⟨.ioError, some 3⟩ : EmbedFail).kind ≠ .otherError →
      output_file cfgAnn recFile [] 1 =
        .ok ⟨attachmentHead recFile 1 ++ attachmentTail recFile.path 1,
             cleanupDest [] (destOf cfgAnn recFile) ⟨.ioError, some 3⟩, 1, true, 1⟩) ∧
    ((⟨.ioError, some 3⟩ : EmbedFail).kind = .otherError →
      output_file cfgAnn recFile [] 1 =
        .error (⟨.ioError, some 3⟩, cleanupDest [] (destOf cfgAnn recFile) ⟨.ioError, some 3⟩)) :=
  c6_embed_failure_policy cfgAnn recFile [] 1 ⟨.ioError, some 3⟩ rfl rfl rfl rfl rfl

/-- Claim C7: a file whose `exists()` is false contributes no attachment
fragment, no filesystem change, no embedding call and no error, and the
attachment loop collects no reference link for a list of such files. -/
theorem c7_missing_file_omitted :
    (∀ (cfg : Config) (f : File) (fs : FS) (i : Nat), f.fileExists = false →
      output_file cfg f fs i = .ok ⟨"", fs, 0, false, 0⟩) ∧
    (∀ (cfg : Config) (files : List File) (fs : FS) (i : Nat),
      (∀ f ∈ files, f.fileExists = false) →
      processFiles cfg files fs i = .ok ("", [], fs)) := by
  have h1 : ∀ (cfg : Config) (f : File) (fs : FS) (i : Nat), f.fileExists = false →
      output_file cfg f fs i = .ok ⟨"", fs, 0, false, 0⟩ := by
    intro cfg f fs i hf
    simp [output_file, hf]
  refine ⟨h1, ?_⟩
  intro cfg files
  induction files with
  | nil => intro fs i _; rfl
  | cons f rest ih =>
    intro fs i hall
    have hf := hall f (List.mem_cons_self f rest)
    have hr : ∀ g ∈ rest, g.fileExists = false :=
      fun g hg => hall g (List.mem_cons_of_mem f hg)
    simp only [processFiles, h1 cfg f fs i hf, ih fs i hr]
    rfl

/-- Claim C7, witness at a concrete missing file. -/
theorem c7_missing_file_omitted_witness :
    output_file cfgPlain ghostFile [] 1 = .ok ⟨"", [], 0, false, 0⟩ ∧
    processFiles cfgPlain [ghostFile] [] 1 = .ok ("", [], []) :=
  ⟨c7_missing_file_omitted.1 cfgPlain ghostFile [] 1 rfl,
   c7_missing_file_omitted.2 cfgPlain [ghostFile] [] 1
     (by intro f hf; simp only [List.mem_singleton] at hf; subst hf; rfl)⟩

/-- Claim C8: XML-unescaping the result of the escape function restores the
original string, for every string — in particular for strings containing
`<`, `>`, `&` and both quote characters. -/
theorem c8_escape_roundtrip : ∀ s : String, unescapeString (escapeString s) = s := by
  intro s
  cases s with
  | mk l => exact congrArg String.mk (unescapeChars_escapeChars l)

/-- Claim C9: attachments are resolved into the side buffer before any byte
of the publication's own fragment reaches the primary stream, so a
propagating embedding failure aborts `output_paper` with an empty partial
fragment for that publication. -/
theorem c9_sidebuffer_no_partial_fragment (cfg : Config) (p : Paper) (fs : FS)
    (i : Nat) (e : EmbedFail) (fsE : FS)
    (h : processFiles cfg p.files fs i = .error (e, fsE)) :
    output_paper cfg p fs i = .error (.embedFailed e, "", fsE) := by
  rcases p with ⟨u, ty, ti, ab, vo, nu, dd, pg, kw, rd, co, ds, cd, au, nt, fl⟩
  simp only [Paper.files] at h
  cases co with
  | none => simp only [output_paper, Paper.files, h]
  | some c => simp only [output_paper, Paper.files, h]

/-- Claim C9, witness at a concrete unrecoverably failing attachment. -/
theorem c9_sidebuffer_no_partial_fragment_witness :
    output_paper cfgAnn c9paper [] 1 = .error (.embedFailed ⟨.otherError, none⟩, "", []) :=
  c9_sidebuffer_no_partial_fragment cfgAnn c9paper [] 1 ⟨.otherError, none⟩ [] rfl

/-- Claim C10: whenever a publication's volume is present, the serialized
fragment carries a `prism:number` element regardless of `number`, whose
text is `formatArg (escape number)` — the literal `"None"` when `number`
is absent. -/
theorem c10_number_gated_on_volume (cfg : Config) (p : Paper) (fs : FS) (i : Nat)
    (r : String × FS) (v : String) (hv : p.volume = some v)
    (h : output_paper cfg p fs i = .ok r) :
    (∃ a b, r.1 = a ++ (numberLineOf p i ++ b)) ∧
    numberLineOf p i =
      write (i + 1) ("<prism:number>" ++ (formatArg (escape p.number) ++ "</prism:number>\n")) ∧
    (p.number = none → formatArg (escape p.number) = "None") := by
  obtain ⟨zt, atts, contStr, app, hz, heq⟩ := output_paper_ok_shape cfg p fs i r h
  refine ⟨⟨openTagOf p i ++ (authorsBlockOf p i ++ (itemTypeLine zt i ++
      (titleLineOf p i ++ (abstractLineOf p i ++ volumeLineOf p i)))),
      doiLineOf p i ++ (pagesLineOf p i ++ (linksBlockOf atts i ++
      (keywordsBlockOf p i ++ (readLineOf p i ++ (contStr ++ (tailLinesOf p i ++ app)))))),
      ?_⟩, ?_, ?_⟩
  · rw [heq]
    simp only [String.append_assoc]
  · simp only [numberLineOf, hv]
  · intro hn
    rw [hn]
    rfl

/-- Claim C10, witness at a publication with a volume and no number. -/
theorem c10_number_gated_on_volume_witness :
    (∃ a b, c10res.1 = a ++ (numberLineOf c10paper 1 ++ b)) ∧
    numberLineOf c10paper 1 =
      write (1 + 1)
        ("<prism:number>" ++ (formatArg (escape c10paper.number) ++ "</prism:number>\n")) ∧
    (c10paper.number = none → formatArg (escape c10paper.number) = "None") :=
  c10_number_gated_on_volume cfgPlain c10paper [] 1 c10res "12" rfl rfl
